import Mathlib

/-!
Shallow embedding of the ICPI basket backend (AlexandriaDAO/basket).

The definitions below are translated from the Rust sources:
  * `6_INFRASTRUCTURE/math/pure_math.rs` (arithmetic kernel),
  * `1_CRITICAL_OPERATIONS/burning/burn_validator.rs` (burn cap),
  * `6_INFRASTRUCTURE/reentrancy/mod.rs` (global operation coordinator),
  * `2_CRITICAL_DATA/mod.rs` (atomic snapshot validation),
  * `6_INFRASTRUCTURE/admin/mod.rs` (pause flag),
  * `1_CRITICAL_OPERATIONS/{burning,minting,rebalancing}` entry points
    (their synchronous guard sequences up to the first inter-canister call),
  * `2_CRITICAL_DATA/portfolio_value/mod.rs` (target allocations and
    deviation construction of the IndexState used by the rebalancer).

`candid::Nat` / `BigUint` values are modelled as `Nat`; `u128` conversions
and `checked_mul` bounds are modelled with explicit `2 ^ 128` comparisons.
Fallible Rust functions returning `Result<T, IcpiError>` become
`Except Err T`; only the error variants reachable from the embedded code
are carried, each with the payload fields the claims mention.
-/

deriving instance DecidableEq for Except

namespace Basket

/-- Global operation states for system-wide coordination
(`GlobalOperation` in `reentrancy/mod.rs`). -/
inductive GlobalOperation
  | idle
  | minting
  | burning
  | rebalancing
deriving DecidableEq, Repr

/-- Error variants reachable from the embedded functions, mirroring the
`IcpiError` taxonomy (`infrastructure/errors`).  String payloads that only
carry diagnostics are dropped; numeric payloads the claims mention are kept. -/
inductive Err
  | divisionByZero
  | precisionLoss
  | invalidAmount
  | proportionalCalculationError
  | noRedemptionsPossible
  | supplyTooLargeToProcess
  | amountTooLargeToProcess
  | burnAmountTooLargeForCalculation
  | supplyTooLargeForCalculation
  | amountExceedsMaximum (maximum : Nat)
  | dataInconsistency
  | criticalOperationInProgress (operation : GlobalOperation)
  | rebalancingInProgress
  | gracePeriodActive (wait_seconds : Nat) (current_operation : GlobalOperation)
  | stateCorrupted
  | systemPaused
  | operationInProgress
  | invalidMintId
  | unauthorizedMint
  | rebalanceAlreadyInProgress
  | invalidPrincipal
  | amountBelowMinimum
  | rateLimited
deriving DecidableEq, Repr

/-- Whether an `Except` result is an error. -/
def isError {α : Type} : Except Err α → Bool
  | .error _ => true
  | .ok _ => false

/-- Multiply two Nats and divide by a third with arbitrary precision
(`multiply_and_divide` in `pure_math.rs`): `⌊(a * b) / c⌋`, failing with
`DivisionByZero` when `c = 0`. -/
def multiply_and_divide (a b c : Nat) : Except Err Nat :=
  if c = 0 then .error .divisionByZero
  else .ok (a * b / c)

/-- Convert between decimal widths (`convert_decimals` in `pure_math.rs`).
Scaling up multiplies by `10 ^ (to - from)`; scaling down divides by
`10 ^ (from - to)` and fails with `PrecisionLoss` whenever the amount is
strictly below the divisor. -/
def convert_decimals (amount from_decimals to_decimals : Nat) : Except Err Nat :=
  if from_decimals = to_decimals then .ok amount
  else if from_decimals < to_decimals then
    .ok (amount * 10 ^ (to_decimals - from_decimals))
  else
    let divisor := 10 ^ (from_decimals - to_decimals)
    if amount < divisor then .error .precisionLoss
    else .ok (amount / divisor)

/-- ICPI amount to mint for a deposit (`calculate_mint_amount` in
`pure_math.rs`): zero deposits are rejected, bootstrap (zero supply or zero
TVL) returns the deposit rebased from 6 to 8 decimals, and otherwise the
proportional amount `⌊(deposit_e8 * supply) / tvl_e8⌋` is returned, with a
zero result rejected as a proportional-calculation error. -/
def calculate_mint_amount (deposit_amount current_supply current_tvl : Nat) :
    Except Err Nat :=
  if deposit_amount = 0 then .error .invalidAmount
  else if current_supply = 0 ∨ current_tvl = 0 then
    convert_decimals deposit_amount 6 8
  else do
    let deposit_e8 ← convert_decimals deposit_amount 6 8
    let tvl_e8 ← convert_decimals current_tvl 6 8
    let icpi_amount ← multiply_and_divide deposit_e8 current_supply tvl_e8
    if icpi_amount = 0 then .error .proportionalCalculationError
    else pure icpi_amount

/-- The token loop of `calculate_redemptions` (`pure_math.rs` lines 130-142):
zero balances are skipped, each remaining balance contributes
`multiply_and_divide burn balance supply`, and only non-zero redemption
amounts are pushed. -/
def redemption_loop (burn_amount total_supply : Nat) :
    List (String × Nat) → Except Err (List (String × Nat))
  | [] => .ok []
  | (token_name, balance) :: rest =>
    if balance = 0 then redemption_loop burn_amount total_supply rest
    else do
      let redemption_amount ← multiply_and_divide burn_amount balance total_supply
      let tail ← redemption_loop burn_amount total_supply rest
      if redemption_amount > 0 then .ok ((token_name, redemption_amount) :: tail)
      else .ok tail

/-- Redemption amounts for burning ICPI (`calculate_redemptions` in
`pure_math.rs`): rejects zero burns, zero supply, burns above supply, then
runs the token loop and rejects an empty redemption list. -/
def calculate_redemptions (burn_amount total_supply : Nat)
    (token_balances : List (String × Nat)) : Except Err (List (String × Nat)) :=
  if burn_amount = 0 then .error .invalidAmount
  else if total_supply = 0 then .error .noRedemptionsPossible
  else if total_supply < burn_amount then .error .invalidAmount
  else do
    let redemptions ← redemption_loop burn_amount total_supply token_balances
    if redemptions.isEmpty then .error .noRedemptionsPossible
    else .ok redemptions

/-- The u128 overflow bound used by `validate_burn_limit`'s conversions and
checked multiplications. -/
def U128_BOUND : Nat := 2 ^ 128

/-- Burn-cap validation (`validate_burn_limit` in `burn_validator.rs`).
Supply and amount are converted to `u128` (failing when out of range), the
products `amount * 100` and `supply * 10` are formed with `checked_mul`
(failing on overflow), and the burn is rejected with
`AmountExceedsMaximum { maximum = ⌊supply * 10 / 100⌋ }` exactly when
`amount * 100 > supply * 10`. -/
def validate_burn_limit (amount supply : Nat) : Except Err Unit :=
  if U128_BOUND ≤ supply then .error .supplyTooLargeToProcess
  else if U128_BOUND ≤ amount then .error .amountTooLargeToProcess
  else if U128_BOUND ≤ amount * 100 then .error .burnAmountTooLargeForCalculation
  else if U128_BOUND ≤ supply * 10 then .error .supplyTooLargeForCalculation
  else if supply * 10 < amount * 100 then
    .error (.amountExceedsMaximum (supply * 10 / 100))
  else .ok ()

/-- Snapshot consistency validation (`validate_and_return_snapshot` in
`2_CRITICAL_DATA/mod.rs`): a positive supply with zero TVL, or zero supply
with positive TVL, is a hard `DataInconsistency` error; otherwise the pair
is returned unchanged. -/
def validate_and_return_snapshot (supply tvl : Nat) : Except Err (Nat × Nat) :=
  if supply > 0 ∧ tvl = 0 then .error .dataInconsistency
  else if supply = 0 ∧ tvl > 0 then .error .dataInconsistency
  else .ok (supply, tvl)

/-- Pause gate (`check_not_paused` in `admin/mod.rs`): fails with the
`Other("System is emergency paused")` error when the emergency-pause cell
is set. -/
def check_not_paused (paused : Bool) : Except Err Unit :=
  if paused then .error .systemPaused else .ok ()

/-- Grace period between operation type switches, in nanoseconds
(`GRACE_PERIOD_NANOS` in `reentrancy/mod.rs`). -/
def GRACE_PERIOD_NANOS : Nat := 60000000000

/-- The global coordinator's mutable cells read by
`try_start_global_operation`: `CURRENT_GLOBAL_OPERATION` and
`LAST_OPERATION_END_TIME`. -/
structure CoordState where
  current_op : GlobalOperation
  last_operation_end_time : Nat
deriving DecidableEq, Repr

/-- The grace-period block of `try_start_global_operation`
(`reentrancy/mod.rs` lines 155-170): only checked when the current
operation is neither `Idle` nor equal to the request, and only fires when
`last_end > 0`, `now > last_end` and `now - last_end < GRACE_PERIOD_NANOS`. -/
def grace_period_check (st : CoordState) (now : Nat) (op : GlobalOperation) :
    Except Err Unit :=
  if st.current_op ≠ .idle ∧ st.current_op ≠ op then
    if st.last_operation_end_time > 0 ∧ st.last_operation_end_time < now ∧
        now - st.last_operation_end_time < GRACE_PERIOD_NANOS then
      .error (.gracePeriodActive
        ((GRACE_PERIOD_NANOS - (now - st.last_operation_end_time)) / 1000000000)
        st.current_op)
    else .ok ()
  else .ok ()

/-- The operation-conflict match of `try_start_global_operation`
(`reentrancy/mod.rs` lines 173-220), returning the updated coordinator
state on success. -/
def operation_conflict_table (st : CoordState) (op : GlobalOperation) :
    Except Err CoordState :=
  match st.current_op, op with
  | .idle, .idle => .ok st
  | .idle, o => .ok { st with current_op := o }
  | _, .idle => .error .stateCorrupted
  | .rebalancing, .minting => .error .rebalancingInProgress
  | .rebalancing, .burning => .error .rebalancingInProgress
  | .minting, .rebalancing => .error (.criticalOperationInProgress .minting)
  | .burning, .rebalancing => .error (.criticalOperationInProgress .burning)
  | .minting, .minting => .ok st
  | .burning, .burning => .ok st
  | .minting, .burning => .ok st
  | .burning, .minting => .ok st
  | .rebalancing, .rebalancing => .ok st

/-- `try_start_global_operation` (`reentrancy/mod.rs`): the grace-period
check runs first and, if it passes, the operation-conflict table decides
the transition. -/
def try_start_global_operation (op : GlobalOperation) (st : CoordState)
    (now : Nat) : Except Err CoordState :=
  (grace_period_check st now op).bind fun _ => operation_conflict_table st op

/-- The grace-period condition of the source, packaged as a Bool so claims
can quantify over it. -/
def grace_applies (st : CoordState) (now : Nat) (op : GlobalOperation) : Bool :=
  decide (st.current_op ≠ .idle) && decide (st.current_op ≠ op) &&
  decide (st.last_operation_end_time > 0) &&
  decide (st.last_operation_end_time < now) &&
  decide (now - st.last_operation_end_time < GRACE_PERIOD_NANOS)

/-- Status of a pending mint (`MintStatus` in `mint_state.rs`), as consulted
by the synchronous head of `complete_mint`. -/
inductive MintStatus
  | pending
  | collectingFee
  | snapshotting
  | collectingDeposit
  | calculating
  | minting
  | complete (amount : Nat)
  | refunding
  | failed
  | failedRefunded
  | failedNoRefund
deriving DecidableEq, Repr

/-- The fields of a stored `PendingMint` that the synchronous head of
`complete_mint` reads: whether its owner equals the caller, and its status. -/
structure PendingMintView where
  owner_is_caller : Bool
  status : MintStatus
deriving DecidableEq, Repr

/-- How the synchronous head of `complete_mint` hands over to the rest of
the function. -/
inductive MintEntryOutcome
  | alreadyComplete (amount : Nat)
  | proceedToFeeCollection
deriving DecidableEq, Repr

/-- Synchronous head of `complete_mint` (`mint_orchestrator.rs` lines
40-66), up to its first inter-canister call (`collect_mint_fee(...).await`):
acquire the per-user mint guard, load the pending mint, check ownership,
and short-circuit an already-complete mint.  The emergency-pause flag is
part of the canister state visible to this code, and the body never reads
it, so it is carried here as an unused argument. -/
def complete_mint_entry_checks (paused : Bool) (caller_mint_active : Bool)
    (pending : Option PendingMintView) : Except Err MintEntryOutcome :=
  if caller_mint_active then .error .operationInProgress
  else
    match pending with
    | none => .error .invalidMintId
    | some pm =>
      if pm.owner_is_caller = false then .error .unauthorizedMint
      else
        match pm.status with
        | .complete a => .ok (.alreadyComplete a)
        | _ => .ok .proceedToFeeCollection

/-- Synchronous head of `perform_rebalance` (`rebalancing/mod.rs` lines
164-180), up to its first inter-canister call (`hourly_rebalance().await`):
only the `REBALANCING_IN_PROGRESS` flag is consulted.  The emergency-pause
flag is carried as an unused argument, as in `complete_mint_entry_checks`. -/
def perform_rebalance_entry_checks (paused : Bool)
    (rebalancing_in_progress : Bool) : Except Err Unit :=
  if rebalancing_in_progress then .error .rebalanceAlreadyInProgress
  else .ok ()

/-- `validate_burn_request` (`burn_validator.rs` lines 7-30): anonymous
callers are rejected, amounts below the minimum are rejected, and the
per-caller rate limit is consulted. -/
def validate_burn_request (caller_is_anonymous : Bool) (amount min_burn : Nat)
    (rate_limited : Bool) : Except Err Unit :=
  if caller_is_anonymous then .error .invalidPrincipal
  else if amount < min_burn then .error .amountBelowMinimum
  else if rate_limited then .error .rateLimited
  else .ok ()

/-- Synchronous head of `burn_icpi` (`burning/mod.rs` lines 37-45), up to
its first inter-canister call (the ckUSDT allowance query): the pause check
runs first, then the per-user burn guard, then `validate_burn_request`. -/
def burn_icpi_entry_checks (paused caller_burn_active caller_is_anonymous : Bool)
    (amount min_burn : Nat) (rate_limited : Bool) : Except Err Unit :=
  (check_not_paused paused).bind fun _ =>
    if caller_burn_active then .error .operationInProgress
    else validate_burn_request caller_is_anonymous amount min_burn rate_limited

/-- Tracked tokens (`TrackedToken` in `types`). -/
inductive TrackedToken
  | ALEX
  | ZERO
  | KONG
  | BOB
  | ckUSDT
deriving DecidableEq, Repr

/-- A target allocation entry of the IndexState
(`TargetAllocation` in `types/rebalancing.rs`).  The `f64` percentage and
USD fields are modelled as rationals; the constants the source stores in
them (`25.0` and `total * 0.25`) are exactly representable. -/
structure TargetAllocation where
  token : TrackedToken
  target_percentage : ℚ
  target_usd_value : ℚ
deriving DecidableEq, Repr

/-- A current position of the IndexState (`CurrentPosition` in
`types/portfolio.rs`), restricted to the fields the deviation construction
reads. -/
structure CurrentPosition where
  token : TrackedToken
  usd_value : ℚ
  percentage : ℚ
deriving DecidableEq, Repr

/-- An allocation deviation entry (`AllocationDeviation` in
`types/rebalancing.rs`). -/
structure AllocationDeviation where
  token : TrackedToken
  current_pct : ℚ
  target_pct : ℚ
  deviation_pct : ℚ
  usd_difference : ℚ
  trade_size_usd : ℚ
deriving DecidableEq, Repr

/-- `TRADE_INTENSITY` (10 percent of deviation per trade). -/
def TRADE_INTENSITY : ℚ := 1 / 10

/-- The target allocations built by `get_portfolio_state_uncached`
(`portfolio_value/mod.rs` lines 230-252): a hardcoded equal-weight list,
25 percent of total value for each of the four basket tokens. -/
def target_allocations (total_value : ℚ) : List TargetAllocation :=
  [ { token := .ALEX, target_percentage := 25,
      target_usd_value := total_value * (1 / 4) },
    { token := .ZERO, target_percentage := 25,
      target_usd_value := total_value * (1 / 4) },
    { token := .KONG, target_percentage := 25,
      target_usd_value := total_value * (1 / 4) },
    { token := .BOB, target_percentage := 25,
      target_usd_value := total_value * (1 / 4) } ]

/-- The deviation construction of `get_portfolio_state_uncached`
(`portfolio_value/mod.rs` lines 254-284): for each target, find the current
position of its token (defaulting to zero), and record the percentage and
USD gaps together with the 10-percent trade size. -/
def build_deviations (targets : List TargetAllocation)
    (positions : List CurrentPosition) : List AllocationDeviation :=
  targets.map fun target =>
    let pos := positions.find? fun p => p.token == target.token
    let current_pct := (pos.map fun p => p.percentage).getD 0
    let current_usd := (pos.map fun p => p.usd_value).getD 0
    let usd_difference := target.target_usd_value - current_usd
    { token := target.token
      current_pct := current_pct
      target_pct := target.target_percentage
      deviation_pct := target.target_percentage - current_pct
      usd_difference := usd_difference
      trade_size_usd := |usd_difference| * TRADE_INTENSITY }

/-- The list of pairs produced by the token loop of `calculate_redemptions`
when the supply is positive, written as a pure list computation: every
non-zero balance contributes `⌊burn * balance / supply⌋`, and zero results
are dropped.  (`redemption_loop_ok` below proves the loop equal to this.) -/
def redemption_list (burn supply : Nat) (B : List (String × Nat)) :
    List (String × Nat) :=
  B.filterMap fun q =>
    if q.2 = 0 then none
    else if burn * q.2 / supply = 0 then none
    else some (q.1, burn * q.2 / supply)

/-- Modelled from the spec: the spec's target weights as "the normalized
per-token shares of the aggregated per-token locked-liquidity USD value"
(the output shape of `calculate_kong_locker_tvl` in
`3_KONG_LIQUIDITY/tvl/mod.rs`).  This definition follows the spec's words
and exists only to be compared with the source's `target_allocations`. -/
def kong_locker_share (aggregate : List (TrackedToken × ℚ))
    (t : TrackedToken) : ℚ :=
  let total := (aggregate.map Prod.snd).sum
  let mine := ((aggregate.filter fun p => p.fst == t).map Prod.snd).sum
  if total = 0 then 0 else mine / total * 100

/-! ## Helper lemmas -/

/-- The token loop of `calculate_redemptions` never fails for a positive
supply, and returns exactly `redemption_list`. -/
theorem redemption_loop_ok (burn supply : Nat) (h : supply ≠ 0)
    (B : List (String × Nat)) :
    redemption_loop burn supply B = .ok (redemption_list burn supply B) := by
  induction B with
  | nil => rfl
  | cons q rest ih =>
    obtain ⟨name, bal⟩ := q
    by_cases hb : bal = 0
    · simp [redemption_loop, redemption_list, hb, ih]
    · by_cases hr : burn * bal / supply = 0
      · simp [redemption_loop, redemption_list, hb, hr, multiply_and_divide, h,
          Bind.bind, Except.bind, ih]
      · simp [redemption_loop, redemption_list, hb, hr, multiply_and_divide, h,
          Bind.bind, Except.bind, ih, Nat.pos_of_ne_zero hr]

/-- On inputs that pass all three validations, `calculate_redemptions`
returns `redemption_list` unless that list is empty, in which case it fails
with `NoRedemptionsPossible`. -/
theorem calculate_redemptions_pos_eq (burn supply : Nat)
    (B : List (String × Nat)) (h0 : burn ≠ 0) (hs : supply ≠ 0)
    (hle : burn ≤ supply) :
    calculate_redemptions burn supply B =
      if redemption_list burn supply B = [] then .error .noRedemptionsPossible
      else .ok (redemption_list burn supply B) := by
  have hlt : ¬ supply < burn := by omega
  simp [calculate_redemptions, h0, hs, hlt, redemption_loop_ok burn supply hs,
    Bind.bind, Except.bind, List.isEmpty_iff]

/-- When all five source conditions hold, the grace-period block fails with
`GracePeriodActive`. -/
theorem grace_period_check_fires (st : CoordState) (now : Nat)
    (op : GlobalOperation) (h : grace_applies st now op = true) :
    grace_period_check st now op =
      .error (.gracePeriodActive
        ((GRACE_PERIOD_NANOS - (now - st.last_operation_end_time)) / 1000000000)
        st.current_op) := by
  simp only [grace_applies, Bool.and_eq_true, decide_eq_true_eq] at h
  obtain ⟨⟨⟨⟨h1, h2⟩, h3⟩, h4⟩, h5⟩ := h
  simp only [grace_period_check, if_pos (And.intro h1 h2),
    if_pos (And.intro h3 (And.intro h4 h5))]

/-- When any of the five source conditions fails, the grace-period block
passes. -/
theorem grace_period_check_passes (st : CoordState) (now : Nat)
    (op : GlobalOperation) (h : grace_applies st now op = false) :
    grace_period_check st now op = .ok () := by
  simp only [grace_applies, Bool.and_eq_false_iff, decide_eq_false_iff_not] at h
  unfold grace_period_check
  split_ifs with h1 h2
  · exfalso
    rcases h with ((((h' | h') | h') | h') | h')
    · exact h' h1.1
    · exact h' h1.2
    · exact h' h2.1
    · exact h' h2.2.1
    · exact h' h2.2.2
  · rfl
  · rfl

/-! ## Claim theorems -/

/-- C1 (counterexample): the claim's dust-rejection scenario
`supply = 100_000_000_000_000, tvl = 1_000_000_000_000, deposit = 1` does
not fail: `calculate_mint_amount` returns
`⌊(100 * 10^14) / 10^14⌋ = 100`, because rebasing the deposit to 8 decimals
and the TVL to 8 decimals gives a quotient of exactly `supply / tvl_e8`
times the rebased deposit, which is not zero here. -/
theorem calculate_mint_amount_dust_example_mints :
    calculate_mint_amount 1 100000000000000 1000000000000 = .ok 100 := by
  decide

/-- C1 (amended): `calculate_mint_amount` fails with `InvalidAmount` on a
zero deposit; returns `rebase(deposit, 6, 8) = deposit * 100` when the
supply or the TVL is zero; and otherwise returns
`⌊(deposit * 100) * supply / (tvl * 100)⌋`, failing with
`ProportionalCalculationError` exactly when that floor quotient is zero.
The proportional example `supply = 10_000_000_000, tvl = 100_000_000,
deposit = 10_000_000 ↦ 1_000_000_000` holds; the dust example of the claim
instead yields `100` (see the counterexample). -/
theorem calculate_mint_amount_spec (deposit supply tvl : Nat) :
    (deposit = 0 →
      calculate_mint_amount deposit supply tvl = .error .invalidAmount) ∧
    (deposit ≠ 0 → (supply = 0 ∨ tvl = 0) →
      calculate_mint_amount deposit supply tvl = .ok (deposit * 100)) ∧
    (deposit ≠ 0 → supply ≠ 0 → tvl ≠ 0 →
      calculate_mint_amount deposit supply tvl =
        if deposit * 100 * supply / (tvl * 100) = 0 then
          .error .proportionalCalculationError
        else .ok (deposit * 100 * supply / (tvl * 100))) ∧
    calculate_mint_amount 10000000 10000000000 100000000 = .ok 1000000000 := by
  refine ⟨fun h0 => ?_, fun h0 hz => ?_, fun h0 hs ht => ?_, by decide⟩
  · simp [calculate_mint_amount, h0]
  · simp [calculate_mint_amount, h0, hz, convert_decimals]
  · have hz : ¬(supply = 0 ∨ tvl = 0) := by tauto
    have htm : tvl * 100 ≠ 0 := by positivity
    simp [calculate_mint_amount, h0, hz, convert_decimals, multiply_and_divide,
      Except.bind, htm]
    split_ifs with hq
    · simp [Bind.bind, Except.bind, htm, hq]
    · simp [Bind.bind, Except.bind, htm, hq, pure, Except.pure]

/-- C1 (witness): the three guarded branches of
`calculate_mint_amount_spec` applied at concrete inputs; in the third,
`⌊(2 * 100) * 6 / (4 * 100)⌋ = 3`. -/
theorem calculate_mint_amount_spec_witness :
    calculate_mint_amount 0 5 7 = .error .invalidAmount ∧
    calculate_mint_amount 3 0 7 = .ok 300 ∧
    calculate_mint_amount 2 6 4 = .ok 3 := by
  refine ⟨(calculate_mint_amount_spec 0 5 7).1 rfl,
    (calculate_mint_amount_spec 3 0 7).2.1 (by decide) (Or.inl rfl), ?_⟩
  rw [(calculate_mint_amount_spec 2 6 4).2.2.1 (by decide) (by decide) (by decide)]
  decide

/-- C2: whenever `calculate_redemptions` succeeds for a burn within the
supply, every returned pair is bounded by the recorded balance of a
matching basket entry: the burn can never redeem more of any asset than
the basket holds. -/
theorem redemptions_bounded_by_balances (burn supply : Nat)
    (B r : List (String × Nat)) (hle : burn ≤ supply) (hs : 0 < supply)
    (hok : calculate_redemptions burn supply B = .ok r) :
    ∀ p ∈ r, ∃ q ∈ B, q.1 = p.1 ∧ p.2 ≤ q.2 := by
  have hs' : supply ≠ 0 := Nat.pos_iff_ne_zero.mp hs
  have h0 : burn ≠ 0 := by
    intro hb
    rw [hb] at hok
    simp [calculate_redemptions] at hok
  rw [calculate_redemptions_pos_eq burn supply B h0 hs' hle] at hok
  split_ifs at hok with he
  cases hok
  intro p hp
  simp only [redemption_list, List.mem_filterMap] at hp
  obtain ⟨q, hq, hf⟩ := hp
  refine ⟨q, hq, ?_⟩
  by_cases hb : q.2 = 0
  · simp [hb] at hf
  · by_cases hz : burn * q.2 / supply = 0
    · simp [hb, hz] at hf
    · simp [hb, hz] at hf
      subst hf
      refine ⟨rfl, ?_⟩
      show burn * q.2 / supply ≤ q.2
      calc burn * q.2 / supply ≤ supply * q.2 / supply :=
            Nat.div_le_div_right (Nat.mul_le_mul_right q.2 hle)
        _ = q.2 := Nat.mul_div_cancel_left q.2 hs

/-- C2 (witness): `calculate_redemptions 50_000_000 100_000_000` on
balances `A = 1000, B = 0, C = 2000` returns `A = 500`, and the theorem
yields a matching basket entry bounding it. -/
theorem redemptions_bounded_by_balances_witness :
    ∃ q ∈ [("A", (1000 : Nat)), ("B", 0), ("C", 2000)],
      q.1 = "A" ∧ (500 : Nat) ≤ q.2 :=
  redemptions_bounded_by_balances 50000000 100000000
    [("A", 1000), ("B", 0), ("C", 2000)] [("A", 500), ("C", 1000)]
    (by decide) (by decide) (by decide) ("A", 500) (by decide)

/-- C3 (counterexample): the burn-cap check is not an exact
iff over all naturals: with `supply = 2^126` and `amount = 1` the claim's
condition `amount * 100 ≤ supply * 10` holds, yet the code rejects because
`supply * 10` overflows the `u128` `checked_mul`, producing an overflow
error rather than acceptance. -/
theorem validate_burn_limit_overflow_rejects_small_burn :
    validate_burn_limit 1 (2 ^ 126) = .error .supplyTooLargeForCalculation ∧
    1 * 100 ≤ 2 ^ 126 * 10 := by
  constructor
  · decide
  · norm_num

/-- C3 (amended): for all amounts and supplies whose scaled products fit in
`u128`, `validate_burn_limit` accepts exactly when
`amount * 100 ≤ supply * 10` (equivalently `amount * 10 ≤ supply`),
rejecting with `AmountExceedsMaximum` carrying `⌊supply * 10 / 100⌋`;
the claim's edge examples at `supply = 1_000_000_000` hold. -/
theorem validate_burn_limit_cap_spec (amount supply : Nat)
    (ha : amount * 100 < U128_BOUND) (hs : supply * 10 < U128_BOUND) :
    (validate_burn_limit amount supply = .ok () ↔
      amount * 100 ≤ supply * 10) ∧
    (supply * 10 < amount * 100 →
      validate_burn_limit amount supply =
        .error (.amountExceedsMaximum (supply * 10 / 100))) ∧
    (amount * 100 ≤ supply * 10 ↔ amount * 10 ≤ supply) ∧
    validate_burn_limit 100000000 1000000000 = .ok () ∧
    validate_burn_limit 100000001 1000000000 =
      .error (.amountExceedsMaximum 100000000) := by
  have hs' : ¬ U128_BOUND ≤ supply := by
    unfold U128_BOUND at hs ⊢
    omega
  have ha' : ¬ U128_BOUND ≤ amount := by
    unfold U128_BOUND at ha ⊢
    omega
  have ha2 : ¬ U128_BOUND ≤ amount * 100 := by omega
  have hs2 : ¬ U128_BOUND ≤ supply * 10 := by omega
  refine ⟨?_, fun hlt => ?_, by omega, by decide, by decide⟩
  · simp only [validate_burn_limit, if_neg hs', if_neg ha', if_neg ha2,
      if_neg hs2]
    constructor
    · intro h
      by_contra hc
      simp [if_pos (by omega : supply * 10 < amount * 100)] at h
    · intro h
      rw [if_neg (by omega : ¬ supply * 10 < amount * 100)]
  · simp only [validate_burn_limit, if_neg hs', if_neg ha', if_neg ha2,
      if_neg hs2, if_pos hlt]

/-- C3 (witness): at `amount = 2, supply = 30` the scaled products fit in
`u128` and the cap condition holds, so the burn is accepted. -/
theorem validate_burn_limit_cap_spec_witness :
    validate_burn_limit 2 30 = .ok () :=
  ((validate_burn_limit_cap_spec 2 30 (by decide) (by decide)).1).mpr (by decide)

/-- C4 (counterexample): with `burn = 1, supply = 2` and the single
non-zero balance `A = 1`, all inputs pass the claim's validation conditions
and the only computed amount `⌊1 * 1 / 2⌋ = 0` is dropped, so the claim
prescribes the empty result list, but the code fails with
`NoRedemptionsPossible` because the kept list is empty. -/
theorem calculate_redemptions_all_dust_errors :
    calculate_redemptions 1 2 [("A", 1)] = .error .noRedemptionsPossible ∧
    (1 : Nat) ≠ 0 ∧ (2 : Nat) ≠ 0 ∧ (1 : Nat) ≤ 2 := by
  decide

/-- C4 (amended): `calculate_redemptions` fails with `InvalidAmount` on a
zero burn; then with `NoRedemptionsPossible` on a zero supply; then with
`InvalidAmount` when the burn exceeds the supply; and otherwise returns
the non-zero floor shares of the non-zero balances, failing with
`NoRedemptionsPossible` also when every computed share is zero (not only
when every balance is zero).  The claim's distribution example holds with
`B` omitted. -/
theorem calculate_redemptions_spec (burn supply : Nat)
    (B : List (String × Nat)) :
    (burn = 0 → calculate_redemptions burn supply B = .error .invalidAmount) ∧
    (burn ≠ 0 → supply = 0 →
      calculate_redemptions burn supply B = .error .noRedemptionsPossible) ∧
    (burn ≠ 0 → supply ≠ 0 → supply < burn →
      calculate_redemptions burn supply B = .error .invalidAmount) ∧
    (burn ≠ 0 → supply ≠ 0 → burn ≤ supply →
      calculate_redemptions burn supply B =
        if redemption_list burn supply B = [] then
          .error .noRedemptionsPossible
        else .ok (redemption_list burn supply B)) ∧
    calculate_redemptions 50000000 100000000
        [("A", 1000), ("B", 0), ("C", 2000)] =
      .ok [("A", 500), ("C", 1000)] := by
  refine ⟨fun h0 => ?_, fun h0 hs => ?_, fun h0 hs hlt => ?_,
    fun h0 hs hle => ?_, by decide⟩
  · simp [calculate_redemptions, h0]
  · simp [calculate_redemptions, h0, hs]
  · simp [calculate_redemptions, h0, hs, hlt]
  · exact calculate_redemptions_pos_eq burn supply B h0 hs hle

/-- C4 (witness): the zero-supply branch of `calculate_redemptions_spec`
at a concrete input. -/
theorem calculate_redemptions_spec_witness :
    calculate_redemptions 7 0 [("A", 5)] = .error .noRedemptionsPossible :=
  (calculate_redemptions_spec 7 0 [("A", 5)]).2.1 (by decide) rfl

/-- C5 (counterexample): the claim's grace condition is too weak: with the
current operation `Minting`, request `Burning`, and `now` exactly equal to
`last_operation_end_time = 5`, zero nanoseconds (less than 60 seconds) have
passed since the last operation end and the operations differ, yet the code
succeeds instead of failing with `GracePeriodActive`, because the source
additionally requires `now` to be strictly greater than the recorded end
time. -/
theorem try_start_grace_skipped_at_equal_times :
    try_start_global_operation .burning ⟨.minting, 5⟩ 5 = .ok ⟨.minting, 5⟩ ∧
    GlobalOperation.minting ≠ .burning ∧ (5 - 5 : Nat) < GRACE_PERIOD_NANOS := by
  decide

/-- C5 (amended): `try_start_global_operation` fails with
`GracePeriodActive` (carrying the wait seconds and the current operation)
exactly under the source's grace condition — current operation neither
`Idle` nor equal to the request, `last_operation_end_time > 0`,
`now > last_operation_end_time`, and elapsed time under 60 seconds — and
when that condition does not hold it follows the transition table:
mint/burn block rebalancing with `CriticalOperationInProgress`,
rebalancing blocks mint/burn with `RebalancingInProgress`, mints and burns
coexist in either order, a second rebalancing request succeeds without
trapping, and from `Idle` (where the grace check never applies) any
non-idle request succeeds. -/
theorem try_start_global_operation_transition_spec (st : CoordState)
    (now : Nat) :
    (∀ op, grace_applies st now op = true →
      try_start_global_operation op st now =
        .error (.gracePeriodActive
          ((GRACE_PERIOD_NANOS - (now - st.last_operation_end_time)) /
            1000000000)
          st.current_op)) ∧
    ((st.current_op = .minting ∨ st.current_op = .burning) →
      grace_applies st now .rebalancing = false →
      try_start_global_operation .rebalancing st now =
        .error (.criticalOperationInProgress st.current_op)) ∧
    (∀ op, (op = .minting ∨ op = .burning) →
      st.current_op = .rebalancing → grace_applies st now op = false →
      try_start_global_operation op st now = .error .rebalancingInProgress) ∧
    (∀ op, (st.current_op = .minting ∨ st.current_op = .burning) →
      (op = .minting ∨ op = .burning) → grace_applies st now op = false →
      try_start_global_operation op st now = .ok st) ∧
    (st.current_op = .rebalancing →
      try_start_global_operation .rebalancing st now = .ok st) ∧
    (st.current_op = .idle → ∀ op, op ≠ .idle →
      try_start_global_operation op st now = .ok { st with current_op := op }) := by
  obtain ⟨cur, last⟩ := st
  refine ⟨fun op h => ?_, fun hc h => ?_, fun op hop hc h => ?_,
    fun op hc hop h => ?_, fun hc => ?_, fun hc op hop => ?_⟩
  · rw [try_start_global_operation, grace_period_check_fires _ _ _ h]
    rfl
  · rw [try_start_global_operation, grace_period_check_passes _ _ _ h]
    rcases hc with hc | hc <;> simp_all <;> rfl
  · rw [try_start_global_operation, grace_period_check_passes _ _ _ h]
    rcases hop with hop | hop <;> simp_all <;> rfl
  · rw [try_start_global_operation, grace_period_check_passes _ _ _ h]
    rcases hc with hc | hc <;> rcases hop with hop | hop <;> simp_all <;> rfl
  · replace hc : cur = GlobalOperation.rebalancing := hc
    subst hc
    have h : grace_applies ⟨.rebalancing, last⟩ now .rebalancing = false := by
      simp [grace_applies]
    rw [try_start_global_operation, grace_period_check_passes _ _ _ h]
    rfl
  · replace hc : cur = GlobalOperation.idle := hc
    subst hc
    have h : grace_applies ⟨.idle, last⟩ now op = false := by
      simp [grace_applies]
    rw [try_start_global_operation, grace_period_check_passes _ _ _ h]
    cases op with
    | idle => exact absurd rfl hop
    | minting => rfl
    | burning => rfl
    | rebalancing => rfl

/-- C5 (witness): with the coordinator in `Minting` and no recorded
operation end, a rebalancing request fails with
`CriticalOperationInProgress`. -/
theorem try_start_global_operation_transition_spec_witness :
    try_start_global_operation .rebalancing ⟨.minting, 0⟩ 0 =
      .error (.criticalOperationInProgress .minting) :=
  (try_start_global_operation_transition_spec ⟨.minting, 0⟩ 0).2.1
    (Or.inl rfl) (by decide)

/-- C6 (counterexample): with a kong-locker aggregate putting the entire
locked-liquidity USD value on ALEX, the spec's normalized share for ALEX is
100 percent, but every target percentage of the IndexState built by
`get_portfolio_state_uncached` is the hardcoded 25: the targets do not
equal the normalized shares of the aggregate. -/
theorem target_allocations_differ_from_kong_shares :
    kong_locker_share [(.ALEX, 100), (.ZERO, 0), (.KONG, 0), (.BOB, 0)]
        .ALEX = 100 ∧
    (target_allocations 1000).map TargetAllocation.target_percentage =
      [25, 25, 25, 25] ∧
    (25 : ℚ) ≠ 100 := by
  refine ⟨by simp +decide [kong_locker_share, List.filter_cons], rfl,
    by norm_num⟩

/-- C6 (amended): the target allocations used by the rebalancing
controller are a constant equal-weight assignment — 25 percent for each of
ALEX, ZERO, KONG and BOB, independent of the kong-locker locked-liquidity
aggregate — and every deviation entry derived from them carries
`target_pct = 25` regardless of the current positions. -/
theorem target_allocations_constant_equal_weights (total_value : ℚ)
    (positions : List CurrentPosition) :
    (target_allocations total_value).map TargetAllocation.token =
      [.ALEX, .ZERO, .KONG, .BOB] ∧
    (target_allocations total_value).map TargetAllocation.target_percentage =
      [25, 25, 25, 25] ∧
    (build_deviations (target_allocations total_value) positions).map
      AllocationDeviation.target_pct = [25, 25, 25, 25] := by
  refine ⟨rfl, rfl, ?_⟩
  simp [build_deviations, target_allocations]

/-- C7 (counterexample): with the emergency pause set, `complete_mint`'s
entry sequence proceeds to its first external call (fee collection) and
`perform_rebalance`'s entry sequence proceeds to `hourly_rebalance`,
neither returning a pause error. -/
theorem paused_mint_and_rebalance_proceed :
    complete_mint_entry_checks true false
        (some ⟨true, .pending⟩) = .ok .proceedToFeeCollection ∧
    perform_rebalance_entry_checks true false = .ok () := by
  decide

/-- C7 (amended): the emergency-pause flag gates only the burn entry
point: `burn_icpi` fails with the pause error before any external call or
state change whenever the flag is set, while `complete_mint` and
`perform_rebalance` contain no pause check at all — their entry sequences
are identical for any value of the flag. -/
theorem pause_gates_only_burn_entry :
    (∀ (caller_burn_active caller_is_anonymous : Bool)
      (amount min_burn : Nat) (rate_limited : Bool),
      burn_icpi_entry_checks true caller_burn_active caller_is_anonymous
        amount min_burn rate_limited = .error .systemPaused) ∧
    (∀ (p q caller_mint_active : Bool) (pending : Option PendingMintView),
      complete_mint_entry_checks p caller_mint_active pending =
        complete_mint_entry_checks q caller_mint_active pending) ∧
    (∀ (p q flag : Bool),
      perform_rebalance_entry_checks p flag =
        perform_rebalance_entry_checks q flag) :=
  ⟨fun _ _ _ _ _ => rfl, fun _ _ _ _ => rfl, fun _ _ _ => rfl⟩

/-- C8: the atomic snapshot validation fails with `DataInconsistency`
exactly when one of supply and TVL is zero while the other is non-zero,
and returns the pair unchanged when both are zero or both are non-zero. -/
theorem validate_and_return_snapshot_spec (supply tvl : Nat) :
    ((supply ≠ 0 ∧ tvl = 0) ∨ (supply = 0 ∧ tvl ≠ 0) →
      validate_and_return_snapshot supply tvl = .error .dataInconsistency) ∧
    ((supply = 0 ↔ tvl = 0) →
      validate_and_return_snapshot supply tvl = .ok (supply, tvl)) := by
  unfold validate_and_return_snapshot
  constructor
  · intro h
    split_ifs with h1 h2
    · rfl
    · rfl
    · omega
  · intro h
    split_ifs with h1 h2
    · omega
    · omega
    · rfl

/-- C8 (witness): the claim's scenario `supply = 1, tvl = 0` is a hard
`DataInconsistency` error. -/
theorem validate_and_return_snapshot_spec_witness :
    validate_and_return_snapshot 1 0 = .error .dataInconsistency :=
  (validate_and_return_snapshot_spec 1 0).1 (Or.inl ⟨by decide, rfl⟩)

/-- C9 (counterexample): requesting `Idle` while the coordinator is
already `Idle` succeeds as a no-op instead of returning an error, so the
claim fails for the `Idle` current state. -/
theorem try_start_idle_from_idle_is_noop_ok :
    try_start_global_operation .idle ⟨.idle, 0⟩ 0 = .ok ⟨.idle, 0⟩ := by
  decide

/-- C9 (amended): from every non-idle current state,
`try_start_global_operation` with target `Idle` returns an error (either
`StateCorrupted` from the conflict table or `GracePeriodActive` when the
grace window is active); from `Idle` the request is an accepted no-op. -/
theorem try_start_idle_errors_from_nonidle (st : CoordState) (now : Nat)
    (h : st.current_op ≠ .idle) :
    isError (try_start_global_operation .idle st now) = true := by
  obtain ⟨cur, last⟩ := st
  rw [try_start_global_operation]
  cases hgc : grace_period_check ⟨cur, last⟩ now .idle with
  | error e => rfl
  | ok u =>
    show isError (operation_conflict_table ⟨cur, last⟩ .idle) = true
    cases cur with
    | idle => exact absurd rfl h
    | minting => rfl
    | burning => rfl
    | rebalancing => rfl

/-- C9 (witness): requesting `Idle` while `Minting` is an error. -/
theorem try_start_idle_errors_from_nonidle_witness :
    isError (try_start_global_operation .idle ⟨.minting, 3⟩ 7) = true :=
  try_start_idle_errors_from_nonidle ⟨.minting, 3⟩ 7 (by decide)

/-- C10: scaling a zero amount down to a strictly smaller decimal width
always fails with `PrecisionLoss`, because the scaled-to-zero guard
`amount < divisor` also fires on a zero input. -/
theorem convert_decimals_zero_scale_down_precision_loss
    (from_decimals to_decimals : Nat) (h : to_decimals < from_decimals) :
    convert_decimals 0 from_decimals to_decimals = .error .precisionLoss := by
  unfold convert_decimals
  have h1 : from_decimals ≠ to_decimals := by omega
  have h2 : ¬ from_decimals < to_decimals := by omega
  have h3 : (0 : Nat) < 10 ^ (from_decimals - to_decimals) :=
    pow_pos (by norm_num) _
  simp [h1, h2, h3]

/-- C10 (witness): rebasing a zero amount from 8 to 6 decimals fails. -/
theorem convert_decimals_zero_scale_down_precision_loss_witness :
    convert_decimals 0 8 6 = .error .precisionLoss :=
  convert_decimals_zero_scale_down_precision_loss 8 6 (by decide)

end Basket
